import Mathlib

/-
Verification development for the niche-recipe-sharing platform client.

The client is a React single-page application with a Zustand global store
(store/main), view components (UV_UserSavedRecipes, UV_SubmitRecipe,
UV_BrowseRecipes, UV_SearchResults, UV_RecipeView) and a PostgreSQL schema
(db seed SQL).  The definitions below are a shallow embedding of the store
state, the store actions and the view handlers that the verified properties
are about.  JavaScript values are modelled as follows: a string-or-undefined
is an Option String, a number input that may be the empty string is an
Option of the numeric type, and JavaScript truthiness on strings (where the
empty string is falsy) is made explicit through jsStringOr / jsFalsyStr.
-/

namespace RecipeApp

/- Difficulty levels of a recipe: the literal union in the source. -/
inductive Difficulty
  | easy
  | medium
  | hard
deriving DecidableEq

/- Sort orders of the browse and search views. -/
inductive SortOrder
  | newest
  | rating
  | popularity
deriving DecidableEq

/- The string written into the sort_by URL query parameter for a sort order. -/
def SortOrder.toUrlValue : SortOrder → String
  | .newest => "newest"
  | .rating => "rating"
  | .popularity => "popularity"

/- UserSummary interface from store/main. -/
structure UserSummary where
  user_id : Nat
  username : String
  profile_picture_url : Option String
deriving DecidableEq

/- UserProfile interface from store/main (extends UserSummary). -/
structure UserProfile where
  user_id : Nat
  username : String
  profile_picture_url : Option String
  email : String
  first_name : Option String
  last_name : Option String
deriving DecidableEq

/- IngredientDetail interface from store/main. -/
structure IngredientDetail where
  quantity : Rat
  unit : Option String
  name : String
  order : Nat
deriving DecidableEq

/- InstructionDetail interface from store/main. -/
structure InstructionDetail where
  step_number : Nat
  description : String
deriving DecidableEq

/- RecipeComment interface from store/main. -/
structure RecipeComment where
  comment_id : Nat
  user : UserSummary
  comment_text : String
  created_at : String
deriving DecidableEq

/- RecipeDetail interface from store/main. -/
structure RecipeDetail where
  recipe_id : Nat
  title : String
  description : String
  cover_photo_url : String
  prep_time_minutes : Nat
  cook_time_minutes : Nat
  servings : Nat
  difficulty_level : Difficulty
  nutri_net_carbs_grams_per_serving : Option Rat
  nutri_protein_grams_per_serving : Option Rat
  nutri_fat_grams_per_serving : Option Rat
  notes_tips : Option String
  average_rating : Option Rat
  rating_count : Nat
  submitter : UserSummary
  tags : List String
  ingredients : List IngredientDetail
  instructions : List InstructionDetail
  comments : List RecipeComment
deriving DecidableEq

/- RecipeSummary interface from store/main. -/
structure RecipeSummary where
  recipe_id : Nat
  title : String
  description : String
  cover_photo_url : String
  prep_time_minutes : Nat
  cook_time_minutes : Nat
  difficulty_level : Difficulty
  average_rating : Option Rat
  user_id : Nat
  username : String
  tags : List String
  saved_at : Option String
deriving DecidableEq

/- PaginationInfo interface from store/main. -/
structure PaginationInfo where
  total_items : Int
  total_pages : Int
  current_page : Int
  items_per_page : Int
deriving DecidableEq

/- PaginatedRecipesResponse interface from store/main. -/
structure PaginatedRecipesResponse where
  recipes : List RecipeSummary
  pagination : PaginationInfo
deriving DecidableEq

/- FilterParams interface from store/main. -/
structure FilterParams where
  tags : List String
  difficulty : List String
  max_prep_time : Option Int
  max_cook_time : Option Int
  min_rating : Option Rat
deriving DecidableEq

/- Toast notification types from store/main. -/
inductive NotificationType
  | success
  | error
  | info
deriving DecidableEq

/- A toast notification held in the store UI slice. -/
structure StoreNotice where
  message : String
  type : NotificationType
deriving DecidableEq

/- The combined Zustand store state (AuthState, RecipesState,
UserProfileState and UiState slices of AppState in store/main). -/
structure AppState where
  is_authenticated : Bool
  access_token : Option String
  user_profile_summary : Option UserSummary
  auth_error : Option String
  loading_auth : Bool
  paginated_recipes : PaginatedRecipesResponse
  current_recipe_details : Option RecipeDetail
  recipe_fetch_error : Option String
  recipe_loading : Bool
  filter_params : FilterParams
  sort_order : SortOrder
  search_query : String
  current_user_profile : Option UserProfile
  saved_recipes : List RecipeSummary
  saved_recipes_loading : Bool
  profile_fetch_error : Option String
  public_user_profile : Option UserProfile
  modal_open : Option String
  notification : Option StoreNotice
deriving DecidableEq

/- An axios failure as observed by the catch blocks in the store:
status is error.response-question-mark.status, errorField is
error.response-question-mark.data-question-mark.error, message is
error.message.  A missing response or a missing body field is none. -/
structure HttpError where
  status : Option Nat
  errorField : Option String
  message : String
deriving DecidableEq

/- JavaScript a-or-b on strings: the empty string is falsy, so the left
operand is returned exactly when it is non-empty. -/
def jsStringOr (a b : String) : String :=
  if a == "" then b else a

/- JavaScript truthiness test for a possibly-undefined string: an absent
value and the empty string are both falsy. -/
def jsFalsyStr : Option String → Bool
  | none => true
  | some s => s == ""

/- JavaScript String.prototype.trim, modelled on the character list of the
string: whitespace characters are dropped from both ends. -/
def jsTrim (s : String) : String :=
  String.mk (((s.data.dropWhile Char.isWhitespace).reverse.dropWhile Char.isWhitespace).reverse)

/- The error-message chain used by every catch block in the store:
error.response-data-error, else error.message, else an action-specific
fallback string, with the JavaScript falsiness of empty strings. -/
def errorNotificationMessage (errField : Option String) (excMsg fallback : String) : String :=
  jsStringOr (jsStringOr (errField.getD "") excMsg) fallback

/- Store action showNotification: installs the toast.  (The 3-second
auto-clear scheduled by its setTimeout is modelled by
notificationTimerFire below.) -/
def showNotification (message : String) (t : NotificationType) (s : AppState) : AppState :=
  { s with notification := some { message := message, type := t } }

/- The setTimeout callback of showNotification firing 3 seconds later on
whatever store state holds at that time: the toast is cleared only when
the currently displayed message is still the one originally shown. -/
def notificationTimerFire (message : String) (s : AppState) : AppState :=
  if s.notification.map StoreNotice.message = some message then
    { s with notification := none }
  else s

/- Store action logout from store/main. -/
def logout (s : AppState) : AppState :=
  { s with
    is_authenticated := false
    access_token := none
    user_profile_summary := none
    current_user_profile := none
    saved_recipes := []
    auth_error := none
    loading_auth := false }

/- Store action setFilters.  Every caller in the repository passes a
complete FilterParams object, for which the object-spread merge in the
source amounts to replacing filter_params. -/
def setFilters (params : FilterParams) (s : AppState) : AppState :=
  { s with filter_params := params }

/- Store action setSortOrder. -/
def setSortOrder (order : SortOrder) (s : AppState) : AppState :=
  { s with sort_order := order }

/- Store action setSearchQuery. -/
def setSearchQuery (query : String) (s : AppState) : AppState :=
  { s with search_query := query }

/- Store action setPage: updates the current page inside
paginated_recipes.pagination. -/
def setPage (pageNumber : Int) (s : AppState) : AppState :=
  { s with
    paginated_recipes :=
      { s.paginated_recipes with
        pagination := { s.paginated_recipes.pagination with current_page := pageNumber } } }

/- Store action setSavedRecipes (used by UV_UserSavedRecipes). -/
def setSavedRecipes (recipes : List RecipeSummary) (s : AppState) : AppState :=
  { s with saved_recipes := recipes }

/- Store action setSavedRecipesLoading (used by UV_UserSavedRecipes). -/
def setSavedRecipesLoading (b : Bool) (s : AppState) : AppState :=
  { s with saved_recipes_loading := b }

/- Catch block of store action submitRating: shows the derived error toast
and resolves to false.  The auth and recipe slices are untouched. -/
def submitRatingOnError (e : HttpError) (s : AppState) : AppState × Bool :=
  (showNotification
    (errorNotificationMessage e.errorField e.message "Failed to submit rating")
    NotificationType.error s, false)

/- Catch block of store action postComment: shows the derived error toast
and resolves to null. -/
def postCommentOnError (e : HttpError) (s : AppState) : AppState × Option RecipeComment :=
  (showNotification
    (errorNotificationMessage e.errorField e.message "Failed to post comment")
    NotificationType.error s, none)

/- Catch block of store action deleteComment: shows the derived error toast
and resolves to false. -/
def deleteCommentOnError (e : HttpError) (s : AppState) : AppState × Bool :=
  (showNotification
    (errorNotificationMessage e.errorField e.message "Failed to delete comment")
    NotificationType.error s, false)

/- Catch block of store action saveRecipe: shows the derived error toast
and resolves to false. -/
def saveRecipeOnError (e : HttpError) (s : AppState) : AppState × Bool :=
  (showNotification
    (errorNotificationMessage e.errorField e.message "Failed to save recipe")
    NotificationType.error s, false)

/- Catch block of store action unsaveRecipe: shows the derived error toast
and resolves to false. -/
def unsaveRecipeOnError (e : HttpError) (s : AppState) : AppState × Bool :=
  (showNotification
    (errorNotificationMessage e.errorField e.message "Failed to unsave recipe")
    NotificationType.error s, false)

/- Catch block of store action loadUserProfile: on a 401 response status the
store logs out first, then records profile_fetch_error and clears
loading_auth. -/
def loadUserProfileOnError (e : HttpError) (s : AppState) : AppState :=
  let errorMessage := errorNotificationMessage e.errorField e.message "Failed to load profile"
  let s1 := if e.status = some 401 then logout s else s
  { s1 with profile_fetch_error := some errorMessage, loading_auth := false }

/- Catch block of store action fetchSavedRecipes: records the error and
clears the loading flag, then logs out when the response status is 401,
and resolves to false. -/
def fetchSavedRecipesOnError (e : HttpError) (s : AppState) : AppState × Bool :=
  let errorMessage := errorNotificationMessage e.errorField e.message "Failed to load saved recipes"
  let s1 := { s with profile_fetch_error := some errorMessage, saved_recipes_loading := false }
  ((if e.status = some 401 then logout s1 else s1), false)

/- The mount effect of UV_UserSavedRecipes: navigate to /login exactly when
the access token is JavaScript-falsy (absent or empty). -/
def savedRecipesViewRedirectsToLogin (s : AppState) : Bool :=
  jsFalsyStr s.access_token

/- onMutate of unsaveRecipeMutation in UV_UserSavedRecipes: snapshot the
current saved_recipes, optimistically drop every entry with the unsaved
recipe id, raise the loading flag, and hand the snapshot to the mutation
context. -/
def unsaveOnMutate (recipeId : Nat) (s : AppState) : AppState × List RecipeSummary :=
  let previousSavedRecipes := s.saved_recipes
  let s1 := setSavedRecipes
    (previousSavedRecipes.filter (fun recipe => recipe.recipe_id ≠ recipeId)) s
  (setSavedRecipesLoading true s1, previousSavedRecipes)

/- onError of unsaveRecipeMutation in UV_UserSavedRecipes: restore the
snapshot held in the context (a list, always truthy in the source), show
the error toast and clear the loading flag. -/
def unsaveOnError (e : HttpError) (context : Option (List RecipeSummary)) (s : AppState) :
    AppState :=
  let s1 := match context with
    | some previousSavedRecipes => setSavedRecipes previousSavedRecipes s
    | none => s
  let s2 := showNotification (jsStringOr e.message "Failed to unsave recipe.")
    NotificationType.error s1
  setSavedRecipesLoading false s2

/- URL query parameters as an ordered list of key-value pairs, the
observable content of a react-router URLSearchParams object. -/
abbrev UrlParams := List (String × String)

/- URLSearchParams.delete: remove every pair with the given key. -/
def urlDelete (key : String) : UrlParams → UrlParams
  | [] => []
  | p :: rest => if p.1 = key then urlDelete key rest else p :: urlDelete key rest

/- URLSearchParams.set: replace the first pair with the given key in place,
dropping later duplicates; append when the key is absent. -/
def urlSet (key value : String) : UrlParams → UrlParams
  | [] => [(key, value)]
  | p :: rest =>
      if p.1 = key then (key, value) :: urlDelete key rest
      else p :: urlSet key value rest

/- URLSearchParams.append: add a pair at the end. -/
def urlAppend (key value : String) (ps : UrlParams) : UrlParams :=
  ps ++ [(key, value)]

/- URLSearchParams.get: the value of the first pair with the given key. -/
def urlGet (key : String) : UrlParams → Option String
  | [] => none
  | p :: rest => if p.1 = key then some p.2 else urlGet key rest

/- The browse view UV_BrowseRecipes as seen by its handlers: the local
filter, sort and page state, the global store, and the URL parameters. -/
structure BrowseView where
  localFilterParams : FilterParams
  localSortOrder : SortOrder
  currentPage : Int
  store : AppState
  url : UrlParams
deriving DecidableEq

namespace UVBrowseRecipes

/- handleSortChange of UV_BrowseRecipes: set the local and global sort
order, reset the local page to 1, and rewrite the URL, where sort_by is
written only for a non-default order and deleted for the default newest. -/
def handleSortChange (newSortOrder : SortOrder) (b : BrowseView) : BrowseView :=
  let current :=
    if newSortOrder ≠ SortOrder.newest then
      urlSet "sort_by" newSortOrder.toUrlValue b.url
    else
      urlDelete "sort_by" b.url
  { b with
    localSortOrder := newSortOrder
    store := setSortOrder newSortOrder b.store
    currentPage := 1
    url := urlSet "page" "1" current }

/- handlePageChange of UV_BrowseRecipes: guarded by
1 <= page <= pagination_info.total_pages; inside the guard it sets the
local page, the global page and the page URL parameter, outside it does
nothing. -/
def handlePageChange (page : Int) (pagination_info : PaginationInfo) (b : BrowseView) :
    BrowseView :=
  if 1 ≤ page ∧ page ≤ pagination_info.total_pages then
    { b with
      currentPage := page
      store := setPage page b.store
      url := urlSet "page" (toString page) b.url }
  else b

/- handleApplyFilters of UV_BrowseRecipes: push the local filters and sort
order into the global store, reset the local page to 1, and build a fresh
URL holding one pair per tag and difficulty, each non-null numeric filter,
sort_by only when not the default, and page=1. -/
def handleApplyFilters (b : BrowseView) : BrowseView :=
  let store1 := setSortOrder b.localSortOrder (setFilters b.localFilterParams b.store)
  let newSearchParams : UrlParams := []
  let u1 := b.localFilterParams.tags.foldl (fun u tag => urlAppend "tags" tag u) newSearchParams
  let u2 := b.localFilterParams.difficulty.foldl (fun u diff => urlAppend "difficulty" diff u) u1
  let u3 := match b.localFilterParams.max_prep_time with
    | some v => urlAppend "max_prep_time" (toString v) u2
    | none => u2
  let u4 := match b.localFilterParams.max_cook_time with
    | some v => urlAppend "max_cook_time" (toString v) u3
    | none => u3
  let u5 := match b.localFilterParams.min_rating with
    | some v => urlAppend "min_rating" (toString v) u4
    | none => u4
  let u6 := if b.localSortOrder ≠ SortOrder.newest then
      urlAppend "sort_by" b.localSortOrder.toUrlValue u5
    else u5
  let u7 := urlAppend "page" "1" u6
  { b with store := store1, currentPage := 1, url := u7 }

end UVBrowseRecipes

/- The search view UV_SearchResults as seen by its pagination handler:
the local page state, the global store, and the URL parameters. -/
structure SearchView where
  local_page : Int
  store : AppState
  url : UrlParams
deriving DecidableEq

namespace UVSearchResults

/- handlePageChange of UV_SearchResults: return early when the query has no
pagination info; otherwise, only for 0 < pageNumber <= total_pages, set the
local page, the global page and the page URL parameter. -/
def handlePageChange (pageNumber : Int) (searchPagination : Option PaginationInfo)
    (v : SearchView) : SearchView :=
  match searchPagination with
  | none => v
  | some pagination =>
      if 0 < pageNumber ∧ pageNumber ≤ pagination.total_pages then
        { v with
          local_page := pageNumber
          store := setPage pageNumber v.store
          url := urlSet "page" (toString pageNumber) v.url }
      else v

end UVSearchResults

/- FormIngredient of UV_SubmitRecipe: the quantity input holds a number or
the empty string (none). -/
structure FormIngredient where
  quantity : Option Rat
  unit : Option String
  name : String
deriving DecidableEq

/- FormInstruction of UV_SubmitRecipe. -/
structure FormInstruction where
  step_number : Nat
  description : String
deriving DecidableEq

/- RecipeFormData of UV_SubmitRecipe.  Numeric inputs hold a number or the
empty string / null, both modelled as none (the validation treats both as
missing: the empty string hits the explicit equality check and null fails
the positivity check by coercing to 0).  cover_photo_file records whether a
file object is attached. -/
structure RecipeFormData where
  title : String
  description : String
  cover_photo_file : Bool
  cover_photo_url : Option String
  prep_time_minutes : Option Int
  cook_time_minutes : Option Int
  servings : Option Int
  difficulty_level : Difficulty
  nutri_net_carbs_grams_per_serving : Option Rat
  nutri_protein_grams_per_serving : Option Rat
  nutri_fat_grams_per_serving : Option Rat
  notes_tips : Option String
  ingredients : List FormIngredient
  instructions : List FormInstruction
  tags : List String
deriving DecidableEq

/- FormErrors of UV_SubmitRecipe, restricted to the fields the validation
writes; an unset field is none. -/
structure FormErrors where
  title : Option String := none
  description : Option String := none
  cover_photo : Option String := none
  prep_time_minutes : Option String := none
  cook_time_minutes : Option String := none
  servings : Option String := none
  ingredients : Option String := none
  instructions : Option String := none
  nutri_net_carbs_grams_per_serving : Option String := none
  nutri_protein_grams_per_serving : Option String := none
  nutri_fat_grams_per_serving : Option String := none
deriving DecidableEq

/- A numeric form input that is the empty string, null, or non-positive:
the failure condition of the required positive-number checks. -/
def emptyOrNonpositiveInt : Option Int → Bool
  | none => true
  | some v => v ≤ 0

/- Same failure condition for a rational-valued input (ingredient
quantities). -/
def emptyOrNonpositiveRat : Option Rat → Bool
  | none => true
  | some v => v ≤ 0

/- A present negative value: the failure condition of the optional
nutrition checks (a missing value passes). -/
def negativeRat : Option Rat → Bool
  | none => false
  | some v => v < 0

/- validate_recipe_form of UV_SubmitRecipe.  The source runs a sequence of
independent if-statements, each writing one error field and clearing
isValid; since no field is written twice, the chain is rendered as one
record whose fields carry their conditions, with isValid the negated
disjunction of all conditions. -/
def validate_recipe_form (f : RecipeFormData) : FormErrors × Bool :=
  let titleBad := jsTrim f.title == ""
  let descriptionBad := jsTrim f.description == ""
  let coverBad := !f.cover_photo_file && jsFalsyStr f.cover_photo_url
  let prepBad := emptyOrNonpositiveInt f.prep_time_minutes
  let cookBad := emptyOrNonpositiveInt f.cook_time_minutes
  let servingsBad := emptyOrNonpositiveInt f.servings
  let ingredientsBad := f.ingredients.isEmpty ||
    f.ingredients.any (fun ing => jsTrim ing.name == "" || emptyOrNonpositiveRat ing.quantity)
  let instructionsBad := f.instructions.isEmpty ||
    f.instructions.any (fun inst => jsTrim inst.description == "")
  let carbsBad := negativeRat f.nutri_net_carbs_grams_per_serving
  let proteinBad := negativeRat f.nutri_protein_grams_per_serving
  let fatBad := negativeRat f.nutri_fat_grams_per_serving
  let errors : FormErrors :=
    { title := if titleBad then some "Recipe title is required." else none
      description := if descriptionBad then some "Recipe description is required." else none
      cover_photo := if coverBad then some "Recipe cover photo is required." else none
      prep_time_minutes :=
        if prepBad then some "Preparation time is required and must be positive." else none
      cook_time_minutes :=
        if cookBad then some "Cooking time is required and must be positive." else none
      servings := if servingsBad then some "Servings is required and must be positive." else none
      ingredients :=
        if ingredientsBad then some "At least one ingredient with quantity and name is required."
        else none
      instructions :=
        if instructionsBad then some "At least one instruction step is required." else none
      nutri_net_carbs_grams_per_serving :=
        if carbsBad then some "Net carbs cannot be negative." else none
      nutri_protein_grams_per_serving :=
        if proteinBad then some "Protein cannot be negative." else none
      nutri_fat_grams_per_serving := if fatBad then some "Fat cannot be negative." else none }
  (errors, !(titleBad || descriptionBad || coverBad || prepBad || cookBad || servingsBad ||
    ingredientsBad || instructionsBad || carbsBad || proteinBad || fatBad))

/- handle_recipe_submit of UV_SubmitRecipe: the mutation is invoked with
the form data exactly when validation reports the form valid; the result
records the payload handed to mutation.mutate, none when it was not
invoked. -/
def handle_recipe_submit (f : RecipeFormData) : Option RecipeFormData :=
  if (validate_recipe_form f).2 then some f else none

/- The instructions field of the submit/edit mutation payload: the map with
index of the source, carrying the running list position, which overwrites
each step_number with position plus one. -/
def instructionsPayloadFrom (index : Nat) : List FormInstruction → List FormInstruction
  | [] => []
  | inst :: rest => { inst with step_number := index + 1 } :: instructionsPayloadFrom (index + 1) rest

/- The full instructions payload, starting the map index at 0. -/
def instructionsPayload (instructions : List FormInstruction) : List FormInstruction :=
  instructionsPayloadFrom 0 instructions

/- A row of the ratings table of the seed SQL schema. -/
structure RatingRow where
  rating_id : Nat
  recipe_id : Nat
  user_id : Nat
  rating : Int
deriving DecidableEq

/- The key of the UNIQUE (recipe_id, user_id) constraint on ratings. -/
def ratingsKey (r : RatingRow) : Nat × Nat :=
  (r.recipe_id, r.user_id)

/- The two table constraints of ratings: CHECK (rating >= 1 AND rating <= 5)
on every row, and UNIQUE (recipe_id, user_id). -/
def ratingsInvariant (table : List RatingRow) : Prop :=
  (∀ r ∈ table, 1 ≤ r.rating ∧ r.rating ≤ 5) ∧ (table.map ratingsKey).Nodup

instance : DecidablePred ratingsInvariant := fun _ =>
  inferInstanceAs (Decidable (_ ∧ _))

/- An INSERT into the ratings table: the database accepts the row exactly
when the CHECK passes and no existing row shares its (recipe_id, user_id)
key, and rejects it otherwise. -/
def ratingsInsert (table : List RatingRow) (row : RatingRow) : Option (List RatingRow) :=
  if 1 ≤ row.rating ∧ row.rating ≤ 5 ∧ ∀ r ∈ table, ratingsKey r ≠ ratingsKey row then
    some (table ++ [row])
  else none

/- The outcome of rateMutation in UV_RecipeView: the resolved boolean,
whether the store action submitRating was reached, and the toast shown on
the guard paths. -/
structure RateOutcome where
  result : Bool
  calledSubmitRating : Bool
  notice : Option StoreNotice
deriving DecidableEq

/- mutationFn of rateMutation in UV_RecipeView: bail out with false before
calling submitRating when unauthenticated or the recipe id is NaN, and
again when the chosen rating lies outside 1..5; otherwise call
submitRating and resolve to its result. -/
def rateMutation (is_authenticated : Bool) (recipeIdIsNaN : Bool) (rating : Int)
    (submitRatingResult : Bool) : RateOutcome :=
  if !is_authenticated || recipeIdIsNaN then
    { result := false
      calledSubmitRating := false
      notice := some { message := "Please log in to rate recipes.", type := NotificationType.info } }
  else if rating < 1 ∨ rating > 5 then
    { result := false
      calledSubmitRating := false
      notice := some { message := "Rating must be between 1 and 5.", type := NotificationType.error } }
  else
    { result := submitRatingResult
      calledSubmitRating := true
      notice :=
        if submitRatingResult then none
        else some { message := "Failed to submit rating.", type := NotificationType.error } }

/- The amended message-selection rule for error toasts, stated in its own
words: the error field of the response body when present and non-empty,
otherwise the exception message when non-empty, otherwise the fixed
per-action fallback string. -/
def specNotificationMessage (errField : Option String) (excMsg fallback : String) : String :=
  match errField with
  | some f => if f ≠ "" then f else if excMsg ≠ "" then excMsg else fallback
  | none => if excMsg ≠ "" then excMsg else fallback

/- The initial state of the Zustand store, with the initial values laid out
in store/main. -/
def initialAppState : AppState :=
  { is_authenticated := false
    access_token := none
    user_profile_summary := none
    auth_error := none
    loading_auth := false
    paginated_recipes :=
      { recipes := []
        pagination := { total_items := 0, total_pages := 0, current_page := 1, items_per_page := 10 } }
    current_recipe_details := none
    recipe_fetch_error := none
    recipe_loading := false
    filter_params :=
      { tags := [], difficulty := [], max_prep_time := none, max_cook_time := none,
        min_rating := none }
    sort_order := SortOrder.newest
    search_query := ""
    current_user_profile := none
    saved_recipes := []
    saved_recipes_loading := false
    profile_fetch_error := none
    public_user_profile := none
    modal_open := none
    notification := none }

/- A logged-in store state used to evaluate the handlers on concrete
inputs. -/
def loggedInState : AppState :=
  { initialAppState with is_authenticated := true, access_token := some "token-abc" }

/- A 401 axios failure as produced when an expired token is rejected. -/
def unauthorizedError : HttpError :=
  { status := some 401, errorField := none, message := "Request failed with status code 401" }

/- A concrete browse view used to evaluate the handlers. -/
def sampleBrowseView : BrowseView :=
  { localFilterParams :=
      { tags := ["High Protein"], difficulty := [], max_prep_time := some 30,
        max_cook_time := none, min_rating := none }
    localSortOrder := SortOrder.rating
    currentPage := 1
    store := initialAppState
    url := [("page", "1")] }

/- A concrete search view used to evaluate the handlers. -/
def sampleSearchView : SearchView :=
  { local_page := 1
    store := initialAppState
    url := [("q", "keto"), ("page", "1")] }

/- A concrete pagination info used to evaluate the pagination handlers. -/
def samplePagination : PaginationInfo :=
  { total_items := 30, total_pages := 3, current_page := 1, items_per_page := 10 }

/- A submit form whose title is only whitespace and whose remaining fields
pass validation. -/
def whitespaceTitleForm : RecipeFormData :=
  { title := "   "
    description := "A quick dinner."
    cover_photo_file := true
    cover_photo_url := none
    prep_time_minutes := some 10
    cook_time_minutes := some 20
    servings := some 2
    difficulty_level := Difficulty.easy
    nutri_net_carbs_grams_per_serving := none
    nutri_protein_grams_per_serving := none
    nutri_fat_grams_per_serving := none
    notes_tips := none
    ingredients := [{ quantity := some 2, unit := some "cups", name := "Broccoli" }]
    instructions := [{ step_number := 1, description := "Steam the broccoli." }]
    tags := [] }

/- Helper lemmas about the URL parameter operations. -/

theorem urlGet_set_self (key value : String) (ps : UrlParams) :
    urlGet key (urlSet key value ps) = some value := by
  induction ps with
  | nil => simp [urlSet, urlGet]
  | cons p rest ih =>
      by_cases h : p.1 = key <;> simp [urlSet, urlGet, h, ih]


theorem urlGet_delete_self (key : String) (ps : UrlParams) :
    urlGet key (urlDelete key ps) = none := by
  induction ps with
  | nil => rfl
  | cons p rest ih =>
      by_cases h : p.1 = key <;> simp [urlDelete, urlGet, h, ih]

theorem urlGet_delete_ne {key key2 : String} (h : key ≠ key2) (ps : UrlParams) :
    urlGet key (urlDelete key2 ps) = urlGet key ps := by
  have h2 : key2 ≠ key := Ne.symm h
  induction ps with
  | nil => rfl
  | cons p rest ih =>
      by_cases hp : p.1 = key2
      · have hpk : p.1 ≠ key := by rw [hp]; exact h2
        simp [urlDelete, urlGet, hp, hpk, h, h2, ih]
      · by_cases hk : p.1 = key <;> simp [urlDelete, urlGet, hp, hk, h, h2, ih]

theorem urlGet_set_ne {key key2 : String} (h : key ≠ key2) (value : String) (ps : UrlParams) :
    urlGet key (urlSet key2 value ps) = urlGet key ps := by
  have h2 : key2 ≠ key := Ne.symm h
  induction ps with
  | nil => simp [urlSet, urlGet, h2]
  | cons p rest ih =>
      by_cases hp : p.1 = key2
      · have hpk : p.1 ≠ key := by rw [hp]; exact h2
        simp [urlSet, urlGet, hp, hpk, h, h2, urlGet_delete_ne h]
      · by_cases hk : p.1 = key <;> simp [urlSet, urlGet, hp, hk, h, h2, ih]

theorem foldl_urlAppend (key : String) (items : List String) (init : UrlParams) :
    items.foldl (fun u x => urlAppend key x u) init
      = init ++ items.map (fun x => (key, x)) := by
  induction items generalizing init with
  | nil => simp
  | cons x xs ih =>
      rw [List.foldl_cons, ih]
      simp [urlAppend, List.append_assoc]

/- Helper lemma: the reassigned step numbers of a payload built from
position index are the consecutive integers starting at index plus one. -/
theorem instructionsPayloadFrom_map_step (n : Nat) (l : List FormInstruction) :
    (instructionsPayloadFrom n l).map FormInstruction.step_number
      = List.range' (n + 1) l.length := by
  induction l generalizing n with
  | nil => rfl
  | cons inst rest ih => simp [instructionsPayloadFrom, List.range'_succ, ih]

/- Helper lemma: the message chain of the store catch blocks agrees with the
amended selection rule. -/
theorem errorNotificationMessage_eq_spec (errField : Option String) (excMsg fallback : String) :
    errorNotificationMessage errField excMsg fallback
      = specNotificationMessage errField excMsg fallback := by
  cases errField with
  | none =>
      by_cases hm : excMsg = "" <;>
        simp [errorNotificationMessage, specNotificationMessage, jsStringOr, hm]
  | some f =>
      by_cases hf : f = "" <;> by_cases hm : excMsg = "" <;>
        simp [errorNotificationMessage, specNotificationMessage, jsStringOr, hf, hm]

/-- C1: onMutate of unsaveRecipeMutation optimistically removes every saved
entry carrying the unsaved recipe id, and onError restores the snapshot it
captured, so after a failed unsave the saved_recipes list equals its value
before the operation started. -/
theorem unsave_failed_restores_saved_recipes :
    ∀ (s : AppState) (recipeId : Nat) (e : HttpError),
      ((unsaveOnMutate recipeId s).1).saved_recipes
        = s.saved_recipes.filter (fun recipe => recipe.recipe_id ≠ recipeId)
      ∧ (unsaveOnError e (some (unsaveOnMutate recipeId s).2)
          (unsaveOnMutate recipeId s).1).saved_recipes = s.saved_recipes := by
  intro s recipeId e
  refine ⟨rfl, ?_⟩
  simp [unsaveOnMutate, unsaveOnError, setSavedRecipes, setSavedRecipesLoading,
    showNotification]

/-- C2 counterexample: the claim says every client request failing with 401
logs the user out, but the catch block of submitRating leaves the
authenticated session intact on a 401 failure, and no redirect to login is
triggered. -/
theorem rating_401_does_not_logout :
    loggedInState.is_authenticated = true
    ∧ ((submitRatingOnError unauthorizedError loggedInState).1).is_authenticated = true
    ∧ ((submitRatingOnError unauthorizedError loggedInState).1).access_token = some "token-abc"
    ∧ savedRecipesViewRedirectsToLogin
        (submitRatingOnError unauthorizedError loggedInState).1 = false := by
  refine ⟨rfl, rfl, rfl, ?_⟩
  decide

/-- C2 amended: a 401 failure of loadUserProfile or fetchSavedRecipes logs
the user out (is_authenticated false, access_token, user_profile_summary
and current_user_profile cleared, saved_recipes emptied) and the
saved-recipes view then redirects to login; other actions do not share this
handling. -/
theorem profile_and_saved_fetch_401_logout_and_redirect :
    ∀ (s : AppState) (e : HttpError), e.status = some 401 →
      (loadUserProfileOnError e s).is_authenticated = false
      ∧ (loadUserProfileOnError e s).access_token = none
      ∧ (loadUserProfileOnError e s).user_profile_summary = none
      ∧ (loadUserProfileOnError e s).current_user_profile = none
      ∧ (loadUserProfileOnError e s).saved_recipes = []
      ∧ savedRecipesViewRedirectsToLogin (loadUserProfileOnError e s) = true
      ∧ ((fetchSavedRecipesOnError e s).1).is_authenticated = false
      ∧ ((fetchSavedRecipesOnError e s).1).access_token = none
      ∧ ((fetchSavedRecipesOnError e s).1).user_profile_summary = none
      ∧ ((fetchSavedRecipesOnError e s).1).current_user_profile = none
      ∧ ((fetchSavedRecipesOnError e s).1).saved_recipes = []
      ∧ savedRecipesViewRedirectsToLogin (fetchSavedRecipesOnError e s).1 = true := by
  intro s e h
  simp [loadUserProfileOnError, fetchSavedRecipesOnError, h, logout,
    savedRecipesViewRedirectsToLogin, jsFalsyStr]

/-- Witness for the amended C2 theorem at a concrete 401 failure on a
logged-in state. -/
theorem profile_and_saved_fetch_401_logout_and_redirect_witness :
    unauthorizedError.status = some 401
    ∧ (loadUserProfileOnError unauthorizedError loggedInState).is_authenticated = false := by
  exact ⟨rfl,
    (profile_and_saved_fetch_401_logout_and_redirect loggedInState unauthorizedError rfl).1⟩

/-- C3: a submission whose title is empty or only whitespace makes
validation record the required-title error, report the form invalid, and
handle_recipe_submit never reaches the mutation. -/
theorem empty_title_blocks_submission :
    ∀ f : RecipeFormData, jsTrim f.title = "" →
      (validate_recipe_form f).1.title = some "Recipe title is required."
      ∧ (validate_recipe_form f).2 = false
      ∧ handle_recipe_submit f = none := by
  intro f h
  refine ⟨?_, ?_, ?_⟩ <;> simp [validate_recipe_form, handle_recipe_submit, h]

/-- Witness for C3 at a concrete whitespace-titled form. -/
theorem empty_title_blocks_submission_witness :
    jsTrim whitespaceTitleForm.title = ""
    ∧ handle_recipe_submit whitespaceTitleForm = none := by
  exact ⟨by decide, (empty_title_blocks_submission whitespaceTitleForm (by decide)).2.2⟩

/-- C4: an accepted INSERT into the ratings table preserves the CHECK
(rating between 1 and 5) and UNIQUE (recipe_id, user_id) invariant and only
accepts rows within bounds, and rateMutation resolves to false without
reaching submitRating whenever the chosen rating lies below 1 or above 5. -/
theorem ratings_bounds_and_uniqueness :
    ∀ (table t2 : List RatingRow) (row : RatingRow) (auth nan submitRes : Bool) (rating : Int),
      (ratingsInsert table row = some t2 →
        (ratingsInvariant table → ratingsInvariant t2) ∧ 1 ≤ row.rating ∧ row.rating ≤ 5)
      ∧ ((rating < 1 ∨ rating > 5) →
        (rateMutation auth nan rating submitRes).result = false
        ∧ (rateMutation auth nan rating submitRes).calledSubmitRating = false) := by
  intro table t2 row auth nan submitRes rating
  constructor
  · intro hins
    by_cases hcond : 1 ≤ row.rating ∧ row.rating ≤ 5 ∧
        ∀ r ∈ table, ratingsKey r ≠ ratingsKey row
    · rw [ratingsInsert, if_pos hcond] at hins
      obtain ⟨h1, h2, h3⟩ := hcond
      injection hins with hins
      subst hins
      refine ⟨fun hinv => ⟨?_, ?_⟩, h1, h2⟩
      · intro r hr
        rcases List.mem_append.mp hr with hmem | hmem
        · exact hinv.1 r hmem
        · rw [List.mem_singleton.mp hmem]
          exact ⟨h1, h2⟩
      · rw [List.map_append, List.nodup_append]
        refine ⟨hinv.2, List.nodup_singleton _, ?_⟩
        intro a ha hb
        rcases List.mem_map.mp ha with ⟨r, hr, rfl⟩
        rcases List.mem_map.mp hb with ⟨r2, hr2, hkey⟩
        rw [List.mem_singleton.mp hr2] at hkey
        exact h3 r hr hkey.symm
    · rw [ratingsInsert, if_neg hcond] at hins
      exact absurd hins (by simp)
  · intro h
    unfold rateMutation
    by_cases hb : (!auth || nan) = true
    · rw [if_pos hb]
      exact ⟨rfl, rfl⟩
    · rw [if_neg hb, if_pos h]
      exact ⟨rfl, rfl⟩

/-- Witness for C4 at a concrete insert into the empty ratings table and a
concrete out-of-range rating. -/
theorem ratings_bounds_and_uniqueness_witness :
    ratingsInvariant [{ rating_id := 1, recipe_id := 1, user_id := 1, rating := 5 }]
    ∧ (rateMutation true false 0 true).result = false
    ∧ (rateMutation true false 0 true).calledSubmitRating = false := by
  have h := ratings_bounds_and_uniqueness []
    [{ rating_id := 1, recipe_id := 1, user_id := 1, rating := 5 }]
    { rating_id := 1, recipe_id := 1, user_id := 1, rating := 5 } true false true 0
  refine ⟨(h.1 (by decide)).1 (by decide), (h.2 (Or.inl (by decide))).1,
    (h.2 (Or.inl (by decide))).2⟩

/-- C5: handleSortChange pushes the new sort order into the local state and
the global store, resets the page to 1, and writes page=1 and sort_by
(omitted exactly for the default newest) into the URL; handlePageChange on
an in-range page writes it into the local state, the global store and the
URL; handleApplyFilters pushes the local filters into the global store and
serializes every non-empty filter into a fresh URL with page reset to 1. -/
theorem browse_handlers_sync_store_and_url :
    ∀ (newSortOrder : SortOrder) (page : Int) (pagination_info : PaginationInfo) (b : BrowseView),
      (UVBrowseRecipes.handleSortChange newSortOrder b).localSortOrder = newSortOrder
      ∧ (UVBrowseRecipes.handleSortChange newSortOrder b).store.sort_order = newSortOrder
      ∧ (UVBrowseRecipes.handleSortChange newSortOrder b).currentPage = 1
      ∧ urlGet "page" (UVBrowseRecipes.handleSortChange newSortOrder b).url = some "1"
      ∧ urlGet "sort_by" (UVBrowseRecipes.handleSortChange newSortOrder b).url
          = (if newSortOrder = SortOrder.newest then none else some newSortOrder.toUrlValue)
      ∧ (1 ≤ page → page ≤ pagination_info.total_pages →
          (UVBrowseRecipes.handlePageChange page pagination_info b).currentPage = page
          ∧ (UVBrowseRecipes.handlePageChange page pagination_info
              b).store.paginated_recipes.pagination.current_page = page
          ∧ urlGet "page" (UVBrowseRecipes.handlePageChange page pagination_info b).url
              = some (toString page))
      ∧ (UVBrowseRecipes.handleApplyFilters b).store.filter_params = b.localFilterParams
      ∧ (UVBrowseRecipes.handleApplyFilters b).store.sort_order = b.localSortOrder
      ∧ (UVBrowseRecipes.handleApplyFilters b).currentPage = 1
      ∧ (UVBrowseRecipes.handleApplyFilters b).url
          = b.localFilterParams.tags.map (fun tag => ("tags", tag))
            ++ b.localFilterParams.difficulty.map (fun diff => ("difficulty", diff))
            ++ (match b.localFilterParams.max_prep_time with
                | some v => [("max_prep_time", toString v)]
                | none => [])
            ++ (match b.localFilterParams.max_cook_time with
                | some v => [("max_cook_time", toString v)]
                | none => [])
            ++ (match b.localFilterParams.min_rating with
                | some v => [("min_rating", toString v)]
                | none => [])
            ++ (if b.localSortOrder = SortOrder.newest then []
                else [("sort_by", b.localSortOrder.toUrlValue)])
            ++ [("page", "1")] := by
  intro newSortOrder page pagination_info b
  refine ⟨rfl, rfl, rfl, ?_, ?_, ?_, rfl, rfl, rfl, ?_⟩
  · cases newSortOrder <;>
      simp [UVBrowseRecipes.handleSortChange, urlGet_set_self]
  · cases newSortOrder <;>
      simp [UVBrowseRecipes.handleSortChange, SortOrder.toUrlValue,
        urlGet_set_ne (show ("sort_by" : String) ≠ "page" by decide),
        urlGet_delete_self, urlGet_set_self]
  · intro h1 h2
    unfold UVBrowseRecipes.handlePageChange
    rw [if_pos ⟨h1, h2⟩]
    exact ⟨rfl, rfl, urlGet_set_self _ _ _⟩
  · unfold UVBrowseRecipes.handleApplyFilters
    simp only [foldl_urlAppend]
    rcases b.localFilterParams.max_prep_time with _ | v1 <;>
      rcases b.localFilterParams.max_cook_time with _ | v2 <;>
        rcases b.localFilterParams.min_rating with _ | v3 <;>
          by_cases hs : b.localSortOrder = SortOrder.newest <;>
            simp [hs, urlAppend, List.append_assoc]

/-- Witness for C5 at a concrete in-range page change. -/
theorem browse_handlers_sync_store_and_url_witness :
    (1 : Int) ≤ 2
    ∧ (2 : Int) ≤ samplePagination.total_pages
    ∧ (UVBrowseRecipes.handlePageChange 2 samplePagination sampleBrowseView).currentPage = 2 := by
  have h := browse_handlers_sync_store_and_url SortOrder.rating 2 samplePagination
    sampleBrowseView
  exact ⟨by norm_num, by decide, (h.2.2.2.2.2.1 (by norm_num) (by decide)).1⟩

/-- C6: the submit/edit payload reassigns every instruction step_number to
its list position plus one, so step numbers are exactly 1..n in order,
pairwise distinct, and the (recipe_id, step_number) pairs of the submitted
recipe satisfy the UNIQUE constraint of the instructions table. -/
theorem instructions_payload_step_numbers :
    ∀ (insts : List FormInstruction) (rid : Nat),
      (instructionsPayload insts).map FormInstruction.step_number
        = List.range' 1 insts.length
      ∧ ((instructionsPayload insts).map FormInstruction.step_number).Nodup
      ∧ ((instructionsPayload insts).map (fun inst => (rid, inst.step_number))).Nodup := by
  intro insts rid
  have hmap : (instructionsPayload insts).map FormInstruction.step_number
      = List.range' 1 insts.length := instructionsPayloadFrom_map_step 0 insts
  have hnodup : ((instructionsPayload insts).map FormInstruction.step_number).Nodup := by
    rw [hmap]; exact List.nodup_range' 1 insts.length
  refine ⟨hmap, hnodup, ?_⟩
  have hcomp : (instructionsPayload insts).map (fun inst => (rid, inst.step_number))
      = ((instructionsPayload insts).map FormInstruction.step_number).map
          (fun k => (rid, k)) := by
    rw [List.map_map]
    rfl
  rw [hcomp]
  exact hnodup.map (fun a b hab => by
    have := congrArg Prod.snd hab
    simpa using this)

/-- C7 counterexample: the claim says the toast message is the error field
of the response body whenever that field is present, but a present empty
error field is falsy in JavaScript, so the chain falls through to the
exception message instead. -/
theorem empty_error_field_not_shown :
    errorNotificationMessage (some "") "Network Error" "Failed to submit rating"
      = "Network Error"
    ∧ ((submitRatingOnError
          { status := some 500, errorField := some "", message := "Network Error" }
          initialAppState).1).notification
        = some { message := "Network Error", type := NotificationType.error }
    ∧ ("Network Error" : String) ≠ "" := by
  refine ⟨rfl, rfl, by decide⟩

/-- C7 amended: every failing store mutation resolves to its failure value
(false or null) and shows a toast whose message is the response-body error
field when present and non-empty, otherwise the exception message when
non-empty, otherwise the fixed per-action fallback string. -/
theorem mutation_errors_return_failure_and_toast :
    ∀ (e : HttpError) (s : AppState),
      (submitRatingOnError e s).2 = false
      ∧ ((submitRatingOnError e s).1).notification
          = some (StoreNotice.mk
              (specNotificationMessage e.errorField e.message "Failed to submit rating")
              NotificationType.error)
      ∧ (postCommentOnError e s).2 = none
      ∧ ((postCommentOnError e s).1).notification
          = some (StoreNotice.mk
              (specNotificationMessage e.errorField e.message "Failed to post comment")
              NotificationType.error)
      ∧ (saveRecipeOnError e s).2 = false
      ∧ ((saveRecipeOnError e s).1).notification
          = some (StoreNotice.mk
              (specNotificationMessage e.errorField e.message "Failed to save recipe")
              NotificationType.error)
      ∧ (unsaveRecipeOnError e s).2 = false
      ∧ ((unsaveRecipeOnError e s).1).notification
          = some (StoreNotice.mk
              (specNotificationMessage e.errorField e.message "Failed to unsave recipe")
              NotificationType.error)
      ∧ (deleteCommentOnError e s).2 = false
      ∧ ((deleteCommentOnError e s).1).notification
          = some (StoreNotice.mk
              (specNotificationMessage e.errorField e.message "Failed to delete comment")
              NotificationType.error) := by
  intro e s
  simp [submitRatingOnError, postCommentOnError, saveRecipeOnError, unsaveRecipeOnError,
    deleteCommentOnError, showNotification, errorNotificationMessage_eq_spec]

/-- C8 counterexample: the claim says logout leaves every field other than
the six it lists unchanged, but logout also forces loading_auth to false,
so a state with loading_auth true is changed beyond the listed fields. -/
theorem logout_clears_loading_auth :
    ({ initialAppState with loading_auth := true } : AppState).loading_auth = true
    ∧ (logout { initialAppState with loading_auth := true }).loading_auth = false := by
  exact ⟨rfl, rfl⟩

/-- C8 amended: logout clears is_authenticated, access_token,
user_profile_summary, current_user_profile, saved_recipes, auth_error and
additionally loading_auth, and leaves every other store field unchanged,
in particular filter_params, sort_order, search_query and
paginated_recipes. -/
theorem logout_fields_and_frame :
    ∀ s : AppState,
      (logout s).is_authenticated = false
      ∧ (logout s).access_token = none
      ∧ (logout s).user_profile_summary = none
      ∧ (logout s).current_user_profile = none
      ∧ (logout s).saved_recipes = []
      ∧ (logout s).auth_error = none
      ∧ (logout s).loading_auth = false
      ∧ (logout s).filter_params = s.filter_params
      ∧ (logout s).sort_order = s.sort_order
      ∧ (logout s).search_query = s.search_query
      ∧ (logout s).paginated_recipes = s.paginated_recipes
      ∧ (logout s).current_recipe_details = s.current_recipe_details
      ∧ (logout s).recipe_fetch_error = s.recipe_fetch_error
      ∧ (logout s).recipe_loading = s.recipe_loading
      ∧ (logout s).saved_recipes_loading = s.saved_recipes_loading
      ∧ (logout s).profile_fetch_error = s.profile_fetch_error
      ∧ (logout s).public_user_profile = s.public_user_profile
      ∧ (logout s).modal_open = s.modal_open
      ∧ (logout s).notification = s.notification := by
  intro s
  exact ⟨rfl, rfl, rfl, rfl, rfl, rfl, rfl, rfl, rfl, rfl, rfl, rfl, rfl, rfl, rfl, rfl,
    rfl, rfl, rfl⟩

/-- C9: a page change to an integer below 1 or above the total page count
reported by the current pagination info leaves the browse view and the
search view completely unchanged, local page, global store and URL
included; the search handler is also a no-op without pagination info. -/
theorem out_of_range_page_change_is_noop :
    ∀ (page : Int) (pagination_info : PaginationInfo) (b : BrowseView) (v : SearchView),
      (page < 1 ∨ page > pagination_info.total_pages) →
        UVBrowseRecipes.handlePageChange page pagination_info b = b
        ∧ UVSearchResults.handlePageChange page (some pagination_info) v = v
        ∧ UVSearchResults.handlePageChange page none v = v := by
  intro page pagination_info b v h
  have hnot : ¬(1 ≤ page ∧ page ≤ pagination_info.total_pages) := by omega
  have hnot2 : ¬(0 < page ∧ page ≤ pagination_info.total_pages) := by omega
  refine ⟨?_, ?_, rfl⟩
  · unfold UVBrowseRecipes.handlePageChange
    rw [if_neg hnot]
  · show (if 0 < page ∧ page ≤ pagination_info.total_pages then _ else v) = v
    rw [if_neg hnot2]

/-- Witness for C9 at the concrete out-of-range page 0. -/
theorem out_of_range_page_change_is_noop_witness :
    ((0 : Int) < 1 ∨ (0 : Int) > samplePagination.total_pages)
    ∧ UVBrowseRecipes.handlePageChange 0 samplePagination sampleBrowseView = sampleBrowseView
    ∧ UVSearchResults.handlePageChange 0 (some samplePagination) sampleSearchView
        = sampleSearchView := by
  have h := out_of_range_page_change_is_noop 0 samplePagination sampleBrowseView
    sampleSearchView (Or.inl (by norm_num))
  exact ⟨Or.inl (by norm_num), h.1, h.2.1⟩

/-- C10: a toast raised by showNotification is cleared by its 3-second
timer exactly when the displayed message is still the one originally
shown; when a newer toast with a different message is displayed, the timer
leaves the store unchanged. -/
theorem notification_timer_clears_only_same_message :
    ∀ (message : String) (t : NotificationType) (s s2 : AppState),
      (showNotification message t s).notification = some { message := message, type := t }
      ∧ (s2.notification.map StoreNotice.message = some message →
          (notificationTimerFire message s2).notification = none)
      ∧ (∀ n, s2.notification = some n → n.message ≠ message →
          notificationTimerFire message s2 = s2) := by
  intro message t s s2
  refine ⟨rfl, ?_, ?_⟩
  · intro h
    simp [notificationTimerFire, h]
  · intro n hn hne
    simp [notificationTimerFire, hn, hne]

/-- Witness for C10: the timer clears its own toast and leaves a newer
toast with a different message in place. -/
theorem notification_timer_clears_only_same_message_witness :
    (notificationTimerFire "Recipe saved"
      (showNotification "Recipe saved" NotificationType.success initialAppState)).notification
      = none
    ∧ notificationTimerFire "Recipe saved"
        (showNotification "Recipe unsaved" NotificationType.success initialAppState)
      = showNotification "Recipe unsaved" NotificationType.success initialAppState := by
  have h := notification_timer_clears_only_same_message "Recipe saved"
    NotificationType.success initialAppState
  exact ⟨(h (showNotification "Recipe saved" NotificationType.success initialAppState)).2.1 rfl,
    (h (showNotification "Recipe unsaved" NotificationType.success initialAppState)).2.2
      { message := "Recipe unsaved", type := NotificationType.success } rfl (by decide)⟩

end RecipeApp
